import Mathlib

/-!
Verification of the credential / token-lifecycle core of the SoftwareIngen
repository (`src/Act_2/app`): `security.py`, `deps.py` and `routers/auth.py`,
shallowly embedded in Lean.  Timestamps are modelled as integer Unix seconds,
the uuid4 generator as an explicit supply `Nat → String` threaded by index,
and Python exceptions as `Except` values.
-/

/-- A Python exception escaping one of the embedded functions: either a
FastAPI `HTTPException(status_code, detail)` or a `NameError` /
`UnboundLocalError` for an unresolvable name. -/
inductive PyExc
  | http (statusCode : Nat) (detail : String)
  | nameError (missing : String)
deriving DecidableEq, Repr

/-- Outcome of one call to argon2 `PasswordHasher.verify(hash, password)`:
it returns `True`, or raises `VerifyMismatchError` (password does not match),
`InvalidHashError` (malformed / foreign-format hash string), or some other
exception.  The classifier itself is kept abstract (a parameter), since the
argon2 primitive is an external library. -/
inductive PhVerifyOutcome
  | succeeds
  | raisesMismatch
  | raisesInvalidHash
  | raisesOther
deriving DecidableEq, Repr

/-- Abstract argon2 verifier: given the stored hash string and the candidate
password, classify what `ph.verify` does. -/
abbrev Verifier := String → String → PhVerifyOutcome

/-- `security.verify_password`: `try: return ph.verify(password_hash, password)
except Exception: return False`.  Totality of this Lean function is the
embedding of "never raises". -/
def verify_password (verifier : Verifier) (password password_hash : String) : Bool :=
  match verifier password_hash password with
  | .succeeds => true
  | .raisesMismatch => false
  | .raisesInvalidHash => false
  | .raisesOther => false

/-- The claim set carried inside a signed token after `_encode` added the
timestamps: `sub`, `jti`, `typ`, `iat`, `exp` (Unix seconds). -/
structure Payload where
  sub : String
  jti : String
  typ : String
  iat : Int
  exp : Int
deriving DecidableEq, Repr

/-- Idealized model of a compact HS256 JWT string: the serialized payload
together with the key its HMAC signature was computed with.  An ideal MAC is
assumed: signature verification succeeds exactly when the verifying key equals
the signing key. -/
structure Token where
  payload : Payload
  signedWith : String
deriving DecidableEq, Repr

/-- The typed decode failures of PyJWT relevant here. -/
inductive JwtError
  | invalidSignature
  | expired
deriving DecidableEq, Repr

/-- `jwt.encode(payload, key, algorithm="HS256")`. -/
def jwt_encode (payload : Payload) (key : String) : Token :=
  { payload := payload, signedWith := key }

/-- `jwt.decode(token, key, algorithms=["HS256"])` at current time `now`:
PyJWT first verifies the signature (`InvalidSignatureError` on mismatch) and
then the registered `exp` claim, raising `ExpiredSignatureError` when
`exp <= now` (zero leeway). -/
def jwt_decode (tok : Token) (key : String) (now : Int) : Except JwtError Payload :=
  if tok.signedWith ≠ key then .error .invalidSignature
  else if tok.payload.exp ≤ now then .error .expired
  else .ok tok.payload

/-- The input claim dict of `_encode` at its call sites:
`{"sub": ..., "jti": ..., "typ": ...}`. -/
structure Claims where
  sub : String
  jti : String
  typ : String
deriving DecidableEq, Repr

/-- Python truthiness of an `int | None` value: `None` and `0` are falsy. -/
def optIntTruthy (o : Option Int) : Bool :=
  match o with
  | none => false
  | some n => n != 0

/-- The time-to-live in seconds computed by `_encode`:
`timedelta(minutes=minutes) if minutes else timedelta(days=days or 0)`. -/
def timedeltaSeconds (minutes days : Option Int) : Int :=
  if optIntTruthy minutes then 60 * minutes.getD 0
  else 86400 * days.getD 0

/-- `TokenPair._encode(payload, key, minutes, days)` — the function body as
written (note: the claim that the *name* `_encode` does not resolve at module
level is treated separately, see `securityModuleNames`).  It merges
`iat = now` and `exp = now + ttl` into the payload and signs with `key`. -/
def _encode (claims : Claims) (key : String) (minutes days : Option Int) (now : Int) : Token :=
  jwt_encode
    { sub := claims.sub, jti := claims.jti, typ := claims.typ,
      iat := now, exp := now + timedeltaSeconds minutes days }
    key

/-- The fields of `app.config.Settings` used by the token functions. -/
structure Settings where
  SECRET_KEY : String
  REFRESH_SECRET_KEY : String
  ACCESS_TOKEN_EXPIRES_MIN : Int
  REFRESH_TOKEN_EXPIRES_DAYS : Int
deriving DecidableEq, Repr

/-- The names bound at module level (global namespace) of
`app/security.py`, in source order: the imports, then the module-level
`def`/assignment statements.  `def _encode` is indented into the body of
`class TokenPair`, so it binds an attribute of that class, not a module
name. -/
def securityModuleNames : List String :=
  ["datetime", "timedelta", "timezone", "uuid4", "jwt", "PasswordHasher",
   "Type", "settings", "ph", "hash_password", "verify_password", "ALGO",
   "TokenPair", "create_access_token", "create_refresh_token",
   "decode_access", "decode_refresh"]

/-- The attributes bound in the body of `class TokenPair` in
`app/security.py`. -/
def tokenPairAttrs : List String := ["__init__", "_encode"]

/-- Whether the bare name `_encode`, as used by `create_access_token` and
`create_refresh_token`, resolves in the module's global namespace (Python
falls back from function locals to module globals to builtins; a class body
is not an enclosing scope for that lookup). -/
def encodeResolvable : Bool := securityModuleNames.contains "_encode"

/-- The uuid4 generator, modelled as an indexed supply of hex strings; one
call consumes one index. -/
abbrev UuidSupply := Nat → String

/-- `uuid4().hex` under supply `supply`, with generator state `g` (the next
unused index): returns the fresh string and the advanced state. -/
def uuid4hex (supply : UuidSupply) (g : Nat) : String × Nat :=
  (supply g, g + 1)

/-- `security.create_access_token(user_id)`: draws `jti = uuid4().hex`, then
evaluates the bare name `_encode` — a `NameError` when it does not resolve
(`resolve = false`); otherwise encodes
`{"sub": user_id, "jti": jti, "typ": "access"}` with `SECRET_KEY` and
`minutes = ACCESS_TOKEN_EXPIRES_MIN`. -/
def create_access_token (resolve : Bool) (s : Settings) (supply : UuidSupply)
    (g : Nat) (now : Int) (user_id : String) : Except PyExc (Token × Nat) :=
  let (jti, g1) := uuid4hex supply g
  if resolve then
    .ok (_encode { sub := user_id, jti := jti, typ := "access" } s.SECRET_KEY
          (some s.ACCESS_TOKEN_EXPIRES_MIN) none now, g1)
  else .error (.nameError "_encode")

/-- `security.create_refresh_token(user_id, jti=None)`: uses the supplied
`jti` when truthy, else `uuid4().hex`; encodes with `REFRESH_SECRET_KEY` and
`days = REFRESH_TOKEN_EXPIRES_DAYS`, or raises `NameError` when `_encode`
does not resolve. -/
def create_refresh_token (resolve : Bool) (s : Settings) (supply : UuidSupply)
    (g : Nat) (now : Int) (user_id : String) (jti : Option String) :
    Except PyExc (Token × Nat) :=
  let (j, g1) :=
    match jti with
    | some j => if j ≠ "" then (j, g) else uuid4hex supply g
    | none => uuid4hex supply g
  if resolve then
    .ok (_encode { sub := user_id, jti := j, typ := "refresh" } s.REFRESH_SECRET_KEY
          none (some s.REFRESH_TOKEN_EXPIRES_DAYS) now, g1)
  else .error (.nameError "_encode")

/-- `security.decode_access(token)`. -/
def decode_access (s : Settings) (tok : Token) (now : Int) : Except JwtError Payload :=
  jwt_decode tok s.SECRET_KEY now

/-- `security.decode_refresh(token)`. -/
def decode_refresh (s : Settings) (tok : Token) (now : Int) : Except JwtError Payload :=
  jwt_decode tok s.REFRESH_SECRET_KEY now

/-- A row of the `users` table (`app.models.User`), restricted to the columns
the auth endpoints read. -/
structure User where
  id : String
  email : String
  password_hash : String
  name : Option String
deriving DecidableEq, Repr

/-- A row of the `refresh_tokens` table (`app.models.RefreshToken`) as
constructed by the endpoints; `id` has column default `gen_uuid` (a fresh
`uuid4().hex`), `revoked_at` and `rotated_from` are nullable and default to
`None`. -/
structure RefreshTokenRec where
  id : String
  user_id : String
  expires_at : Int
  revoked_at : Option Int
  rotated_from : Option String
  user_agent : Option String
  ip : Option String
deriving DecidableEq, Repr

/-- `db.scalar(select(User).where(User.email == email))`: first user row whose
`email` column equals the given string (the TEXT comparison is exact). -/
def db_find_by_email (db : List User) (email : String) : Option User :=
  db.find? (fun u => u.email == email)

/-- `db.get(User, user_id)`: lookup by primary key. -/
def db_get_user (db : List User) (user_id : String) : Option User :=
  db.find? (fun u => u.id == user_id)

/-- Python truthiness of `user.name or user.email`. -/
def nameOrEmail (u : User) : String :=
  match u.name with
  | some n => if n ≠ "" then n else u.email
  | none => u.email

/-- What a successful `POST /auth/login` produces: the two minted tokens (set
as httpOnly cookies), the `RefreshToken` row added to the session, and the
response message. -/
structure LoginOk where
  access : Token
  refresh : Token
  record : RefreshTokenRec
  message : String
deriving DecidableEq, Repr

/-- `routers/auth.py::login`.  Looks up the user by `payload.email`; if the
row is absent **or** `verify_password` fails, raises the one generic
`HTTPException(401, "Invalid credentials")`.  Otherwise mints the access and
refresh tokens (each drawing a fresh jti from the uuid supply), and builds a
`RefreshToken` row with `expires_at = now + days*86400`, the request
user-agent and client IP, and a third fresh uuid as its column-default id. -/
def login (resolve : Bool) (s : Settings) (verifier : Verifier)
    (supply : UuidSupply) (g : Nat) (now : Int) (db : List User)
    (email password : String) (user_agent ip : Option String) :
    Except PyExc LoginOk :=
  match db_find_by_email db email with
  | none => .error (.http 401 "Invalid credentials")
  | some user =>
    if verify_password verifier password user.password_hash = false then
      .error (.http 401 "Invalid credentials")
    else
      match create_access_token resolve s supply g now user.id with
      | .error e => .error e
      | .ok (access, g1) =>
        match create_refresh_token resolve s supply g1 now user.id none with
        | .error e => .error e
        | .ok (refreshTok, g2) =>
          let exp := now + 86400 * s.REFRESH_TOKEN_EXPIRES_DAYS
          let (recId, _g3) := uuid4hex supply g2
          .ok { access := access, refresh := refreshTok,
                record := { id := recId, user_id := user.id, expires_at := exp,
                            revoked_at := none, rotated_from := none,
                            user_agent := user_agent, ip := ip },
                message := "hello " ++ nameOrEmail user }

/-- What a successful `POST /auth/refresh` produces: the new token pair and
the new `RefreshToken` row. -/
structure RefreshOk where
  access : Token
  refresh : Token
  record : RefreshTokenRec
deriving DecidableEq, Repr

/-- `routers/auth.py::refresh`.  Reads the `refresh_token` cookie (401 if
absent), decodes it with the refresh key (401 on any decode failure), reads
`sub` (401 if falsy), looks the user up by id (401 if absent), then mints a
new access and refresh token with fresh jtis and persists a new
`RefreshToken` row; `rotated_from` is left at its `None` default. -/
def refresh (resolve : Bool) (s : Settings) (supply : UuidSupply) (g : Nat)
    (now : Int) (db : List User) (cookie : Option Token)
    (user_agent ip : Option String) : Except PyExc RefreshOk :=
  match cookie with
  | none => .error (.http 401 "No refresh token")
  | some token =>
    match decode_refresh s token now with
    | .error _ => .error (.http 401 "Invalid refresh token")
    | .ok payload =>
      if payload.sub = "" then .error (.http 401 "Invalid refresh payload")
      else
        match db_get_user db payload.sub with
        | none => .error (.http 401 "User not found")
        | some user =>
          match create_access_token resolve s supply g now user.id with
          | .error e => .error e
          | .ok (access, g1) =>
            match create_refresh_token resolve s supply g1 now user.id none with
            | .error e => .error e
            | .ok (newRefresh, g2) =>
              let exp := now + 86400 * s.REFRESH_TOKEN_EXPIRES_DAYS
              let (recId, _g3) := uuid4hex supply g2
              .ok { access := access, refresh := newRefresh,
                    record := { id := recId, user_id := user.id, expires_at := exp,
                                revoked_at := none, rotated_from := none,
                                user_agent := user_agent, ip := ip } }

/-- `deps.py::get_current_user`.  When `request.cookies.get("access_token")`
is falsy (absent or empty), line 23 raises 401 "Not authenticated"; the
`try:` block decoding the token (lines 24-28) is indented *under* that raise
inside the `if not token:` branch, so it never executes on any path.  When
the cookie is truthy, control reaches line 31, which reads the local
`user_id` — a name assigned only inside the dead block — raising
`UnboundLocalError` (a subclass of `NameError`). -/
def get_current_user (db : List User) (cookie : Option String) : Except PyExc User :=
  match cookie with
  | none => .error (.http 401 "Not authenticated")
  | some token =>
    if token = "" then .error (.http 401 "Not authenticated")
    else .error (.nameError "user_id")

/-- Modelled from the behavior of the external pydantic `EmailStr`
validator (email-validator normalization): the part after the `@` (the
domain) is lowercased; the local part is preserved as given.  Both
`LoginIn.email` and `RegisterIn.email` pass through it before the endpoint
body runs. -/
def emailstr_normalize (e : String) : String :=
  match e.data.splitOn '@' with
  | [lpart, domain] => String.mk (lpart ++ '@' :: domain.map Char.toLower)
  | _ => e

/-- `POST /auth/login` including the pydantic validation step on the raw
request email: the endpoint body receives `emailstr_normalize raw_email`. -/
def login_raw (resolve : Bool) (s : Settings) (verifier : Verifier)
    (supply : UuidSupply) (g : Nat) (now : Int) (db : List User)
    (raw_email password : String) (user_agent ip : Option String) :
    Except PyExc LoginOk :=
  login resolve s verifier supply g now db (emailstr_normalize raw_email)
    password user_agent ip

/-- Whether an `Except` computation returned normally. -/
def exceptOk {ε α : Type} : Except ε α → Bool
  | .ok _ => true
  | .error _ => false

/-- The id of the `RefreshToken` row a login run persisted, when it
succeeded. -/
def loginRecordId : Except PyExc LoginOk → Option String
  | .ok r => some r.record.id
  | .error _ => none

/-- The `jti` claim of the refresh token a login run returned, when it
succeeded. -/
def loginRefreshJti : Except PyExc LoginOk → Option String
  | .ok r => some r.refresh.payload.jti
  | .error _ => none

/-- The `rotated_from` column of the `RefreshToken` row a refresh run
persisted, when it succeeded. -/
def refreshRotatedFrom : Except PyExc RefreshOk → Option (Option String)
  | .ok r => some r.record.rotated_from
  | .error _ => none

/-- A concrete settings instance used by the concrete runs below. -/
def cSettings : Settings := ⟨"K", "R", 15, 7⟩

/-- A verifier under which every password check passes. -/
def okVerifier : Verifier := fun _ _ => .succeeds

/-- A concrete, provably injective uuid supply: the n-th draw is the string
of n repetitions of `a`. -/
def replSupply : UuidSupply := fun n => String.mk (List.replicate n 'a')

/-- A one-user database for the concrete runs. -/
def c6Db : List User := [⟨"id1", "a@x.com", "H", none⟩]

/-- A concrete successful login run: user found, password verifies, token
minting reachable (`resolve = true`). -/
def c6run : Except PyExc LoginOk :=
  login true cSettings okVerifier replSupply 0 1000 c6Db "a@x.com" "pw"
    (some "UA") (some "1.2.3.4")

/-- A concrete valid refresh token presented to `/auth/refresh`: subject
`id1`, jti `P`, signed with the refresh key, not yet expired at time 1000. -/
def presentedTok : Token := ⟨⟨"id1", "P", "refresh", 0, 2000⟩, "R"⟩

/-- A concrete successful refresh run presenting `presentedTok`. -/
def c7run : Except PyExc RefreshOk :=
  refresh true cSettings replSupply 0 1000 c6Db (some presentedTok)
    (some "UA") (some "1.2.3.4")

/-- A one-user database whose stored email has an all-lowercase local
part. -/
def c8Db : List User := [⟨"id1", "alice@x.com", "H", none⟩]

/-- Login with the same credentials but an upper-cased local part in the
email. -/
def c8runUpper : Except PyExc LoginOk :=
  login_raw true cSettings okVerifier replSupply 0 1000 c8Db "Alice@x.com"
    "pw" none none

/-- Login with the exactly matching email. -/
def c8runLower : Except PyExc LoginOk :=
  login_raw true cSettings okVerifier replSupply 0 1000 c8Db "alice@x.com"
    "pw" none none

/-- The value `c6run` evaluates to. -/
def c6ok : LoginOk :=
  ⟨⟨⟨"id1", "", "access", 1000, 1900⟩, "K"⟩,
   ⟨⟨"id1", "a", "refresh", 1000, 605800⟩, "R"⟩,
   ⟨"aa", "id1", 605800, none, none, some "UA", some "1.2.3.4"⟩,
   "hello a@x.com"⟩

/-- The value `c7run` evaluates to. -/
def c7ok : RefreshOk :=
  ⟨⟨⟨"id1", "", "access", 1000, 1900⟩, "K"⟩,
   ⟨⟨"id1", "a", "refresh", 1000, 605800⟩, "R"⟩,
   ⟨"aa", "id1", 605800, none, none, some "UA", some "1.2.3.4"⟩⟩

/-- C1: for every user id, `create_access_token` and `create_refresh_token`
raise `NameError` rather than returning a token, because `_encode` is bound
as an attribute of `class TokenPair` and not at module level; consequently
no call through `login` or `refresh` ever returns successfully. -/
theorem c1_encode_name_unresolvable :
  ∀ (s : Settings) (supply : UuidSupply) (g : Nat) (now : Int) (uid : String)
    (jti : Option String) (verifier : Verifier) (db : List User)
    (email pw : String) (ua ip : Option String) (cookie : Option Token),
    create_access_token encodeResolvable s supply g now uid
      = .error (.nameError "_encode")
    ∧ create_refresh_token encodeResolvable s supply g now uid jti
      = .error (.nameError "_encode")
    ∧ exceptOk (login encodeResolvable s verifier supply g now db email pw ua ip) = false
    ∧ exceptOk (refresh encodeResolvable s supply g now db cookie ua ip) = false := by
  intro s supply g now uid jti verifier db email pw ua ip cookie
  have hres : encodeResolvable = false := by decide
  rw [hres]
  refine ⟨by simp [create_access_token, uuid4hex], ?_, ?_, ?_⟩
  · cases jti with
    | none => simp [create_refresh_token, uuid4hex]
    | some j => simp [create_refresh_token, uuid4hex]
  · cases hfind : db_find_by_email db email with
    | none => simp [login, hfind, exceptOk]
    | some u =>
      by_cases hv : verify_password verifier pw u.password_hash = false
      · simp [login, hfind, hv, exceptOk]
      · simp [login, hfind, hv, create_access_token, uuid4hex, exceptOk]
  · cases cookie with
    | none => simp [refresh, exceptOk]
    | some tok =>
      cases hdec : decode_refresh s tok now with
      | error e => simp [refresh, hdec, exceptOk]
      | ok p =>
        by_cases hsub : p.sub = ""
        · simp [refresh, hdec, hsub, exceptOk]
        · cases hget : db_get_user db p.sub with
          | none => simp [refresh, hdec, hsub, hget, exceptOk]
          | some u => simp [refresh, hdec, hsub, hget, create_access_token, uuid4hex, exceptOk]

/-- C2: whenever the `access_token` cookie carries a (truthy) token,
`get_current_user` raises `NameError` on the unbound local `user_id`
(the decode block is dead code under the `raise` in the `if not token`
branch); when the cookie is absent it raises 401; it never returns a
`User`. -/
theorem c2_get_current_user_never_returns :
  ∀ (db : List User) (cookie : Option String),
    (∀ t, cookie = some t → t ≠ "" →
      get_current_user db cookie = .error (.nameError "user_id"))
    ∧ (cookie = none →
      get_current_user db cookie = .error (.http 401 "Not authenticated"))
    ∧ exceptOk (get_current_user db cookie) = false := by
  intro db cookie
  refine ⟨?_, ?_, ?_⟩
  · intro t ht hne
    subst ht
    simp [get_current_user, hne]
  · intro h
    subst h
    rfl
  · cases cookie with
    | none => rfl
    | some t =>
      by_cases he : t = "" <;> simp [get_current_user, he, exceptOk]

/-- Witness for C2 at a concrete request. -/
theorem c2_get_current_user_never_returns_witness :
  get_current_user [] (some "tok") = .error (.nameError "user_id")
  ∧ get_current_user [] none = .error (.http 401 "Not authenticated") :=
  ⟨(c2_get_current_user_never_returns [] (some "tok")).1 "tok" rfl (by decide),
   (c2_get_current_user_never_returns [] none).2.1 rfl⟩

/-- C3: decoding the token produced by `_encode` with the same key, at any
instant strictly before the computed expiry `now + ttl`, succeeds and the
returned claims agree with the input on `sub`, `jti` and `typ`; likewise
through `decode_access` for a token signed with `SECRET_KEY`. -/
theorem c3_encode_decode_roundtrip :
  ∀ (claims : Claims) (key : String) (minutes days : Option Int)
    (nowEnc t : Int) (s : Settings),
    t < nowEnc + timedeltaSeconds minutes days →
    (∃ p, jwt_decode (_encode claims key minutes days nowEnc) key t = .ok p
      ∧ p.sub = claims.sub ∧ p.jti = claims.jti ∧ p.typ = claims.typ)
    ∧ (∃ p, decode_access s (_encode claims s.SECRET_KEY minutes days nowEnc) t = .ok p
      ∧ p.sub = claims.sub ∧ p.jti = claims.jti ∧ p.typ = claims.typ) := by
  intro claims key minutes days nowEnc t s h
  have hnot : ¬ (nowEnc + timedeltaSeconds minutes days ≤ t) := not_le.mpr h
  constructor
  · refine ⟨Payload.mk claims.sub claims.jti claims.typ nowEnc
        (nowEnc + timedeltaSeconds minutes days), ?_, rfl, rfl, rfl⟩
    simp [jwt_decode, _encode, jwt_encode, hnot]
  · refine ⟨Payload.mk claims.sub claims.jti claims.typ nowEnc
        (nowEnc + timedeltaSeconds minutes days), ?_, rfl, rfl, rfl⟩
    simp [decode_access, jwt_decode, _encode, jwt_encode, hnot]

/-- Witness for C3 at concrete claims, key and times. -/
theorem c3_encode_decode_roundtrip_witness :
  (10 : Int) < 0 + timedeltaSeconds (some 15) none
  ∧ ((∃ p, jwt_decode (_encode ⟨"u1", "j1", "access"⟩ "K" (some 15) none 0) "K" 10 = .ok p
      ∧ p.sub = "u1" ∧ p.jti = "j1" ∧ p.typ = "access")
    ∧ (∃ p, decode_access ⟨"K", "R", 15, 7⟩
          (_encode ⟨"u1", "j1", "access"⟩ "K" (some 15) none 0) 10 = .ok p
      ∧ p.sub = "u1" ∧ p.jti = "j1" ∧ p.typ = "access")) :=
  ⟨by decide,
   c3_encode_decode_roundtrip ⟨"u1", "j1", "access"⟩ "K" (some 15) none 0 10
     ⟨"K", "R", 15, 7⟩ (by decide)⟩

/-- C4: `verify_password` always returns a boolean (the embedding is total:
the `except Exception: return False` guard catches every raise), and returns
`false` whenever the argon2 verify call does not succeed — in particular on a
malformed / foreign-format hash and on a password mismatch. -/
theorem c4_verify_password_total :
  ∀ (verifier : Verifier) (password password_hash : String),
    (verify_password verifier password password_hash = true
      ∨ verify_password verifier password password_hash = false)
    ∧ (verifier password_hash password ≠ .succeeds →
        verify_password verifier password password_hash = false)
    ∧ (verifier password_hash password = .raisesInvalidHash →
        verify_password verifier password password_hash = false)
    ∧ (verifier password_hash password = .raisesMismatch →
        verify_password verifier password password_hash = false) := by
  intro verifier password password_hash
  cases hv : verifier password_hash password <;>
    simp [verify_password, hv]

/-- Witness for C4 with a verifier that reports a malformed hash. -/
theorem c4_verify_password_total_witness :
  verify_password (fun _ _ => PhVerifyOutcome.raisesInvalidHash) "pw" "nonsense" = false :=
  (c4_verify_password_total (fun _ _ => PhVerifyOutcome.raisesInvalidHash)
    "pw" "nonsense").2.2.1 rfl

/-- C5: a login whose email matches no user and a login whose user exists but
whose password fails verification raise the identical
`HTTPException(401, "Invalid credentials")` — the two failures are
indistinguishable. -/
theorem c5_login_failures_indistinguishable :
  ∀ (resolve : Bool) (s : Settings) (verifier : Verifier) (supply : UuidSupply)
    (g : Nat) (now : Int) (db : List User) (e1 p1 e2 p2 : String)
    (ua1 ip1 ua2 ip2 : Option String) (u : User),
    db_find_by_email db e1 = none →
    db_find_by_email db e2 = some u →
    verify_password verifier p2 u.password_hash = false →
    login resolve s verifier supply g now db e1 p1 ua1 ip1
      = .error (.http 401 "Invalid credentials")
    ∧ login resolve s verifier supply g now db e2 p2 ua2 ip2
      = .error (.http 401 "Invalid credentials")
    ∧ login resolve s verifier supply g now db e1 p1 ua1 ip1
      = login resolve s verifier supply g now db e2 p2 ua2 ip2 := by
  intro resolve s verifier supply g now db e1 p1 e2 p2 ua1 ip1 ua2 ip2 u h1 h2 h3
  have g1 : login resolve s verifier supply g now db e1 p1 ua1 ip1
      = .error (.http 401 "Invalid credentials") := by simp [login, h1]
  have g2 : login resolve s verifier supply g now db e2 p2 ua2 ip2
      = .error (.http 401 "Invalid credentials") := by simp [login, h2, h3]
  exact ⟨g1, g2, g1.trans g2.symm⟩

/-- Witness for C5: unknown email vs. known email with wrong password. -/
theorem c5_login_failures_indistinguishable_witness :
  login true ⟨"K", "R", 15, 7⟩ (fun _ _ => PhVerifyOutcome.raisesMismatch)
      (fun _ => "u") 0 0 [⟨"id1", "a@x.com", "H", none⟩] "b@x.com" "pw" none none
    = .error (.http 401 "Invalid credentials")
  ∧ login true ⟨"K", "R", 15, 7⟩ (fun _ _ => PhVerifyOutcome.raisesMismatch)
      (fun _ => "u") 0 0 [⟨"id1", "a@x.com", "H", none⟩] "a@x.com" "pw" none none
    = .error (.http 401 "Invalid credentials")
  ∧ login true ⟨"K", "R", 15, 7⟩ (fun _ _ => PhVerifyOutcome.raisesMismatch)
      (fun _ => "u") 0 0 [⟨"id1", "a@x.com", "H", none⟩] "b@x.com" "pw" none none
    = login true ⟨"K", "R", 15, 7⟩ (fun _ _ => PhVerifyOutcome.raisesMismatch)
      (fun _ => "u") 0 0 [⟨"id1", "a@x.com", "H", none⟩] "a@x.com" "pw" none none :=
  c5_login_failures_indistinguishable true ⟨"K", "R", 15, 7⟩
    (fun _ _ => PhVerifyOutcome.raisesMismatch) (fun _ => "u") 0 0
    [⟨"id1", "a@x.com", "H", none⟩] "b@x.com" "pw" "a@x.com" "pw" none none none none
    ⟨"id1", "a@x.com", "H", none⟩ (by decide) (by decide) (by decide)

/-- C9: decoding a token with any key other than its signing key fails with
`InvalidSignature`; in particular, when the two configured secrets differ,
`decode_access` rejects refresh-signed tokens and `decode_refresh` rejects
access-signed tokens. -/
theorem c9_wrong_key_invalid_signature :
  ∀ (p : Payload) (key key2 : String) (now : Int) (s : Settings)
    (claims : Claims) (minutes days : Option Int) (nowEnc t : Int),
    key2 ≠ key →
    jwt_decode (jwt_encode p key) key2 now = .error .invalidSignature
    ∧ (s.SECRET_KEY ≠ s.REFRESH_SECRET_KEY →
        decode_access s (_encode claims s.REFRESH_SECRET_KEY minutes days nowEnc) t
          = .error .invalidSignature
        ∧ decode_refresh s (_encode claims s.SECRET_KEY minutes days nowEnc) t
          = .error .invalidSignature) := by
  intro p key key2 now s claims minutes days nowEnc t hne
  refine ⟨by simp [jwt_decode, jwt_encode, Ne.symm hne], fun hk => ?_⟩
  constructor
  · simp [decode_access, jwt_decode, _encode, jwt_encode, Ne.symm hk]
  · simp [decode_refresh, jwt_decode, _encode, jwt_encode, hk]

/-- Witness for C9 with two distinct concrete keys. -/
theorem c9_wrong_key_invalid_signature_witness :
  jwt_decode (jwt_encode ⟨"u1", "j1", "access", 0, 900⟩ "K") "R" 0
    = .error .invalidSignature
  ∧ decode_access ⟨"K", "R", 15, 7⟩ (_encode ⟨"u1", "j1", "refresh"⟩ "R" none (some 7) 0) 0
    = .error .invalidSignature
  ∧ decode_refresh ⟨"K", "R", 15, 7⟩ (_encode ⟨"u1", "j1", "access"⟩ "K" (some 15) none 0) 0
    = .error .invalidSignature := by
  have h := c9_wrong_key_invalid_signature ⟨"u1", "j1", "access", 0, 900⟩ "K" "R" 0
    ⟨"K", "R", 15, 7⟩ ⟨"u1", "j1", "refresh"⟩ none (some 7) 0 0 (by decide)
  have h2 := c9_wrong_key_invalid_signature ⟨"u1", "j1", "access", 0, 900⟩ "K" "R" 0
    ⟨"K", "R", 15, 7⟩ ⟨"u1", "j1", "access"⟩ (some 15) none 0 0 (by decide)
  exact ⟨h.1, (h.2 (by decide)).1, (h2.2 (by decide)).2⟩

/-- C10: decoding with the correct key fails with `Expired` at every instant
at or past `issued_at + ttl`, which is exactly the token's `exp` field. -/
theorem c10_decode_expired :
  ∀ (claims : Claims) (key : String) (minutes days : Option Int)
    (nowEnc t : Int) (s : Settings),
    nowEnc + timedeltaSeconds minutes days ≤ t →
    jwt_decode (_encode claims key minutes days nowEnc) key t = .error .expired
    ∧ decode_refresh s (_encode claims s.REFRESH_SECRET_KEY minutes days nowEnc) t
      = .error .expired
    ∧ (_encode claims key minutes days nowEnc).payload.exp
      = (_encode claims key minutes days nowEnc).payload.iat
        + timedeltaSeconds minutes days := by
  intro claims key minutes days nowEnc t s h
  refine ⟨?_, ?_, rfl⟩
  · simp [jwt_decode, _encode, jwt_encode, h]
  · simp [decode_refresh, jwt_decode, _encode, jwt_encode, h]

/-- Witness for C10 at the exact expiry instant of a 7-day refresh token. -/
theorem c10_decode_expired_witness :
  (0 : Int) + timedeltaSeconds none (some 7) ≤ 604800
  ∧ jwt_decode (_encode ⟨"u1", "j1", "refresh"⟩ "R" none (some 7) 0) "R" 604800
    = .error .expired :=
  ⟨by decide,
   (c10_decode_expired ⟨"u1", "j1", "refresh"⟩ "R" none (some 7) 0 604800
     ⟨"K", "R", 15, 7⟩ (by decide)).1⟩

/-- The replicate supply never repeats a draw. -/
theorem replSupply_injective : ∀ i j : Nat, i ≠ j → replSupply i ≠ replSupply j := by
  intro i j hne heq
  apply hne
  have h2 : List.replicate i 'a' = List.replicate j 'a' := congrArg String.data heq
  simpa using congrArg List.length h2

/-- No draw of the replicate supply equals the presented token id `P`. -/
theorem replSupply_avoids_P : ∀ k : Nat, replSupply k ≠ "P" := by
  intro k h
  have h2 : List.replicate k 'a' = ['P'] := congrArg String.data h
  have h3 := congrArg List.length h2
  simp at h3
  subst h3
  exact absurd h2 (by decide)

/-- C6 counterexample: a concrete successful login whose persisted
`RefreshToken` row has an id different from the `jti` of the returned
refresh token — the claim that the record is keyed by the token's jti fails
on this input. -/
theorem c6_counterexample_record_id_is_not_jti :
  (loginRecordId c6run).isSome = true
  ∧ loginRecordId c6run ≠ loginRefreshJti c6run := by decide

/-- C6 (amended): on every successful login the persisted row stores the
request user-agent and client IP, but its id is an independently drawn
uuid (the third draw after the two token jtis), which under an injective
supply differs from the refresh token's jti. -/
theorem c6_amended_record_keyed_independently :
  ∀ (s : Settings) (verifier : Verifier) (supply : UuidSupply) (g : Nat)
    (now : Int) (db : List User) (email pw : String) (ua ip : Option String)
    (r : LoginOk),
    login true s verifier supply g now db email pw ua ip = .ok r →
    (∀ i j : Nat, i ≠ j → supply i ≠ supply j) →
    r.record.user_agent = ua ∧ r.record.ip = ip
    ∧ r.refresh.payload.jti = supply (g + 1)
    ∧ r.record.id = supply (g + 2)
    ∧ r.record.id ≠ r.refresh.payload.jti := by
  intro s verifier supply g now db email pw ua ip r hok hinj
  cases hfind : db_find_by_email db email with
  | none => simp [login, hfind] at hok
  | some u =>
    by_cases hv : verify_password verifier pw u.password_hash = false
    · simp [login, hfind, hv] at hok
    · simp [login, hfind, hv, create_access_token, create_refresh_token,
        uuid4hex] at hok
      subst hok
      exact ⟨rfl, rfl, rfl, rfl, hinj (g + 2) (g + 1) (by omega)⟩

/-- Witness for the amended C6 at the concrete run `c6run`. -/
theorem c6_amended_record_keyed_independently_witness :
  c6ok.record.user_agent = some "UA" ∧ c6ok.record.ip = some "1.2.3.4"
  ∧ c6ok.refresh.payload.jti = replSupply (0 + 1)
  ∧ c6ok.record.id = replSupply (0 + 2)
  ∧ c6ok.record.id ≠ c6ok.refresh.payload.jti :=
  c6_amended_record_keyed_independently cSettings okVerifier replSupply 0 1000
    c6Db "a@x.com" "pw" (some "UA") (some "1.2.3.4") c6ok rfl
    replSupply_injective

/-- C7 counterexample: a concrete successful refresh whose persisted
`RefreshToken` row has `rotated_from = None` rather than the presented
token's jti `P` — the rotation-link half of the claim fails on this
input. -/
theorem c7_counterexample_no_rotation_link :
  refreshRotatedFrom c7run = some none
  ∧ refreshRotatedFrom c7run ≠ some (some "P") := by decide

/-- C7 (amended): every successful refresh mints an access and a refresh
token whose jtis are the next two draws of the uuid supply — fresh, hence
distinct from each other and from the presented token's jti for a supply
that never repeats nor collides with it — but the persisted row's
`rotated_from` is left `None`; the code never links it to the presented
token. -/
theorem c7_amended_fresh_jtis_rotated_from_none :
  ∀ (s : Settings) (supply : UuidSupply) (g : Nat) (now : Int)
    (db : List User) (tok : Token) (ua ip : Option String) (r : RefreshOk),
    refresh true s supply g now db (some tok) ua ip = .ok r →
    (∀ i j : Nat, i ≠ j → supply i ≠ supply j) →
    (∀ k : Nat, supply k ≠ tok.payload.jti) →
    r.access.payload.jti = supply g
    ∧ r.refresh.payload.jti = supply (g + 1)
    ∧ r.access.payload.jti ≠ tok.payload.jti
    ∧ r.refresh.payload.jti ≠ tok.payload.jti
    ∧ r.access.payload.jti ≠ r.refresh.payload.jti
    ∧ r.record.rotated_from = none := by
  intro s supply g now db tok ua ip r hok hinj havoid
  cases hdec : decode_refresh s tok now with
  | error e => simp [refresh, hdec] at hok
  | ok p =>
    by_cases hsub : p.sub = ""
    · simp [refresh, hdec, hsub] at hok
    · cases hget : db_get_user db p.sub with
      | none => simp [refresh, hdec, hsub, hget] at hok
      | some u =>
        simp [refresh, hdec, hsub, hget, create_access_token,
          create_refresh_token, uuid4hex] at hok
        subst hok
        exact ⟨rfl, rfl, havoid g, havoid (g + 1),
          hinj g (g + 1) (by omega), rfl⟩

/-- Witness for the amended C7 at the concrete run `c7run`. -/
theorem c7_amended_fresh_jtis_rotated_from_none_witness :
  c7ok.access.payload.jti = replSupply 0
  ∧ c7ok.refresh.payload.jti = replSupply (0 + 1)
  ∧ c7ok.access.payload.jti ≠ presentedTok.payload.jti
  ∧ c7ok.refresh.payload.jti ≠ presentedTok.payload.jti
  ∧ c7ok.access.payload.jti ≠ c7ok.refresh.payload.jti
  ∧ c7ok.record.rotated_from = none :=
  c7_amended_fresh_jtis_rotated_from_none cSettings replSupply 0 1000 c6Db
    presentedTok (some "UA") (some "1.2.3.4") c7ok rfl
    replSupply_injective replSupply_avoids_P

/-- C8 counterexample: with the account `alice@x.com` stored, a login whose
email differs from it only in the case of the local part (`Alice@x.com`)
fails with `InvalidCredentials` while the exact email succeeds — the two
case-variants do not resolve to the same account. -/
theorem c8_counterexample_local_case_distinguishes :
  c8runUpper = .error (.http 401 "Invalid credentials")
  ∧ (loginRecordId c8runLower).isSome = true := by
  constructor
  · rfl
  · decide

/-- C8 (amended): the account lookup uses the email exactly as produced by
`EmailStr` validation, which lowercases only the domain part; two login
emails with the same local part whose domains agree up to letter case
yield the same normalized key and hence identical login behavior, while
local-part case differences are preserved and distinguish lookups. -/
theorem c8_amended_only_domain_case_normalized :
  ∀ (e1 e2 : String) (lp d1 d2 : List Char),
    e1.data.splitOn '@' = [lp, d1] →
    e2.data.splitOn '@' = [lp, d2] →
    d1.map Char.toLower = d2.map Char.toLower →
    emailstr_normalize e1 = emailstr_normalize e2
    ∧ ∀ (resolve : Bool) (s : Settings) (verifier : Verifier)
        (supply : UuidSupply) (g : Nat) (now : Int) (db : List User)
        (pw : String) (ua ip : Option String),
        login_raw resolve s verifier supply g now db e1 pw ua ip
          = login_raw resolve s verifier supply g now db e2 pw ua ip := by
  intro e1 e2 lp d1 d2 h1 h2 hd
  have hn : emailstr_normalize e1 = emailstr_normalize e2 := by
    simp [emailstr_normalize, h1, h2, hd]
  refine ⟨hn, ?_⟩
  intro resolve s verifier supply g now db pw ua ip
  simp [login_raw, hn]

/-- Witness for the amended C8: same local part, domains differing only in
case. -/
theorem c8_amended_only_domain_case_normalized_witness :
  emailstr_normalize "alice@EX.com" = emailstr_normalize "alice@ex.com"
  ∧ login_raw true cSettings okVerifier replSupply 0 1000 c8Db "alice@EX.com"
      "pw" none none
    = login_raw true cSettings okVerifier replSupply 0 1000 c8Db "alice@ex.com"
      "pw" none none :=
  ⟨(c8_amended_only_domain_case_normalized "alice@EX.com" "alice@ex.com"
      "alice".data "EX.com".data "ex.com".data (by decide) (by decide)
      (by decide)).1,
   (c8_amended_only_domain_case_normalized "alice@EX.com" "alice@ex.com"
      "alice".data "EX.com".data "ex.com".data (by decide) (by decide)
      (by decide)).2 true cSettings okVerifier replSupply 0 1000 c8Db "pw"
      none none⟩
